import Mathlib

/-!
Verification development for the location-directory backend.

The definitions below are a shallow embedding of the Python source:
  - app/db/models.py            (Location, LocationAmenity, Rating, hierarchy)
  - app/crud/crud_location.py   (CRUDLocation.update, _apply_filters, get_multi_filter)
  - app/crud/crud_countries.py  (get_countries_by_pagination total_pages formula)
  - app/schemas/location.py     (LocationUpdate, LocationFilterParams, NearbyLocationRequest)
Floats are modelled as rationals, SQL tables as lists of rows, and the
SQLAlchemy session commit of a single entity as a pointwise map over the
locations table.
-/

/-- Result of ST_SetSRID(ST_MakePoint(x, y), srid): a point geometry.
ST_MakePoint takes (x, y) = (longitude, latitude). -/
structure GeomPoint where
  x : ℚ
  y : ℚ
  srid : Nat
deriving DecidableEq

/-- ST_MakePoint(x, y): a point with no SRID assigned yet (SRID 0). -/
def st_makePoint (x y : ℚ) : GeomPoint := ⟨x, y, 0⟩

/-- ST_SetSRID(g, srid): tag a geometry with a spatial reference system id. -/
def st_setSRID (g : GeomPoint) (srid : Nat) : GeomPoint := { g with srid := srid }

/-- Row of the locations table (app/db/models.py, class Location).
created_at and updated_at are bookkeeping timestamps not modelled here. -/
structure Location where
  id : Int
  name : String
  description : Option String := none
  latitude : ℚ
  longitude : ℚ
  geom : GeomPoint
  address : Option String := none
  city : Option String := none
  country_id : Option Int := none
  region_id : Option Int := none
  district_id : Option Int := none
  ward_id : Option Int := none
  category_id : Option Int := none
  thumbnail_url : Option String := none
  price_min : Option ℚ := none
  price_max : Option ℚ := none
  popularity_score : ℚ := 0
  is_active : Bool := true
deriving DecidableEq

/-- app/schemas/location.py, class LocationUpdate: a partial update spec.
`some v` models a field present in model_dump(exclude_unset=True). -/
structure LocationUpdate where
  name : Option String := none
  description : Option String := none
  latitude : Option ℚ := none
  longitude : Option ℚ := none
  address : Option String := none
  city : Option String := none
  country_id : Option Int := none
  region_id : Option Int := none
  district_id : Option Int := none
  ward_id : Option Int := none
  category_id : Option Int := none
  thumbnail_url : Option String := none
  price_min : Option ℚ := none
  price_max : Option ℚ := none
  popularity_score : Option ℚ := none
  is_active : Option Bool := none
  amenities : Option (List String) := none
deriving DecidableEq

/-- A Python value stored in the update_data dict of CRUDLocation.update. -/
inductive PyValue where
  | pstr (s : String)
  | pnum (q : ℚ)
  | pint (n : Int)
  | pbool (b : Bool)
  | plist (l : List String)
  | pgeom (g : GeomPoint)
deriving DecidableEq

/-- The dict keys CRUDLocation.update can put into update_data: the field
names of LocationUpdate plus the synthesized "geom" key.  The Python
keys are strings; they are embedded as this enumeration (one constructor
per distinct string), which preserves the key comparisons the code makes. -/
inductive FieldKey where
  | name | description | latitude | longitude | address | city
  | country_id | region_id | district_id | ward_id | category_id
  | thumbnail_url | price_min | price_max | popularity_score | is_active
  | amenities | geom
deriving DecidableEq

/-- One dict entry per present (set) optional field. -/
def optEntry {α : Type} (k : FieldKey) (f : α → PyValue) : Option α → List (FieldKey × PyValue)
  | some v => [(k, f v)]
  | none => []

/-- hasattr(db_obj, f) for a Location entity, restricted to the keys that
can occur in update_data: the Location entity (columns, relationships and
properties of app/db/models.py) has an attribute for every such key
except "amenities" — the model names that relationship "amenities_rel",
so hasattr(db_obj, "amenities") is False. -/
def locationHasattr : FieldKey → Bool
  | .amenities => false
  | _ => true

/-- setattr(db_obj, f, v) on a Location entity, for the field names and
value shapes that CRUDLocation.update can produce. -/
def setField (l : Location) (f : FieldKey) (v : PyValue) : Location :=
  match f, v with
  | .name, .pstr s => { l with name := s }
  | .description, .pstr s => { l with description := some s }
  | .latitude, .pnum q => { l with latitude := q }
  | .longitude, .pnum q => { l with longitude := q }
  | .address, .pstr s => { l with address := some s }
  | .city, .pstr s => { l with city := some s }
  | .country_id, .pint n => { l with country_id := some n }
  | .region_id, .pint n => { l with region_id := some n }
  | .district_id, .pint n => { l with district_id := some n }
  | .ward_id, .pint n => { l with ward_id := some n }
  | .category_id, .pint n => { l with category_id := some n }
  | .thumbnail_url, .pstr s => { l with thumbnail_url := some s }
  | .price_min, .pnum q => { l with price_min := some q }
  | .price_max, .pnum q => { l with price_max := some q }
  | .popularity_score, .pnum q => { l with popularity_score := q }
  | .is_active, .pbool b => { l with is_active := b }
  | .geom, .pgeom g => { l with geom := g }
  | _, _ => l

/-- The update_data dict built by CRUDLocation.update (crud_location.py
lines 246-262): the set fields of the partial spec in declaration order,
then, when latitude or longitude is present, a "geom" entry holding
ST_SetSRID(ST_MakePoint(lng, lat), 4326) computed from the merged
(existing + new) coordinate pair. -/
def updateData (obj_in : LocationUpdate) (db_obj : Location) : List (FieldKey × PyValue) :=
  optEntry .name .pstr obj_in.name ++
  optEntry .description .pstr obj_in.description ++
  optEntry .latitude .pnum obj_in.latitude ++
  optEntry .longitude .pnum obj_in.longitude ++
  optEntry .address .pstr obj_in.address ++
  optEntry .city .pstr obj_in.city ++
  optEntry .country_id .pint obj_in.country_id ++
  optEntry .region_id .pint obj_in.region_id ++
  optEntry .district_id .pint obj_in.district_id ++
  optEntry .ward_id .pint obj_in.ward_id ++
  optEntry .category_id .pint obj_in.category_id ++
  optEntry .thumbnail_url .pstr obj_in.thumbnail_url ++
  optEntry .price_min .pnum obj_in.price_min ++
  optEntry .price_max .pnum obj_in.price_max ++
  optEntry .popularity_score .pnum obj_in.popularity_score ++
  optEntry .is_active .pbool obj_in.is_active ++
  optEntry .amenities .plist obj_in.amenities ++
  (if obj_in.latitude.isSome || obj_in.longitude.isSome then
    [(FieldKey.geom, .pgeom (st_setSRID
      (st_makePoint (obj_in.longitude.getD db_obj.longitude)
                    (obj_in.latitude.getD db_obj.latitude)) 4326))]
   else [])

/-- The field-application loop of CRUDLocation.update (lines 265-267):
for field, value in update_data.items():
  if hasattr(db_obj, field) and field != "geom": setattr(db_obj, field, value). -/
def applyUpdateData (l : Location) (data : List (FieldKey × PyValue)) : Location :=
  data.foldl (fun acc kv =>
    if locationHasattr kv.1 && kv.1 != FieldKey.geom then setField acc kv.1 kv.2 else acc) l

/-- CRUDLocation.update (crud_location.py lines 238-272): build update_data
from the set fields (plus the computed geom entry) and apply the
setattr loop to the entity. -/
def CRUDLocation.update (db_obj : Location) (obj_in : LocationUpdate) : Location :=
  applyUpdateData db_obj (updateData obj_in db_obj)

/-- setattr on a field other than geom leaves geom unchanged. -/
theorem setField_geom_of_ne (l : Location) (f : FieldKey) (v : PyValue) (h : f ≠ FieldKey.geom) :
    (setField l f v).geom = l.geom := by
  cases f <;> cases v <;> first
    | rfl
    | exact absurd rfl h

/-- The application loop never writes geom: every entry is either skipped
by the guard or applied with a field name other than "geom". -/
theorem applyUpdateData_geom (data : List (FieldKey × PyValue)) (l : Location) :
    (applyUpdateData l data).geom = l.geom := by
  induction data generalizing l with
  | nil => rfl
  | cons kv rest ih =>
    show (applyUpdateData (if locationHasattr kv.1 && kv.1 != FieldKey.geom
        then setField l kv.1 kv.2 else l) rest).geom = l.geom
    rw [ih]
    split
    · next hguard =>
      have hne : kv.1 ≠ FieldKey.geom := by
        have := (Bool.and_eq_true _ _).mp hguard |>.2
        exact bne_iff_ne.mp this
      exact setField_geom_of_ne l kv.1 kv.2 hne
    · rfl

/-- C10: for every update call on a location, whatever fields the partial
spec contains (including latitude and/or longitude), the stored geom
column after the call equals the stored geom column before the call:
the field-application loop excludes the "geom" key, so the geometry
value prepared from updated coordinates is never assigned to the entity,
and geom is a frame-invariant of update. -/
theorem update_preserves_geom (db_obj : Location) (obj_in : LocationUpdate) :
    (CRUDLocation.update db_obj obj_in).geom = db_obj.geom :=
  applyUpdateData_geom _ db_obj

/-- Concrete location used to exhibit the stale-geometry behaviour. -/
def c1loc : Location :=
  { id := 1, name := "Cafe A", latitude := 10, longitude := 20,
    geom := st_setSRID (st_makePoint 20 10) 4326 }

/-- Concrete partial update changing only the latitude. -/
def c1upd : LocationUpdate := { latitude := some 11 }

/-- C1 (code bug evaluation): updating the latitude of c1loc from 10 to 11
stores the new latitude but leaves geom at the old point (20, 10); the
fresh SRID-4326 point from the merged pair would be (20, 11), so the
stored geometry does not equal a fresh computation from the merged
coordinates, contradicting the specified behaviour. -/
theorem update_latitude_leaves_geom_stale :
    (CRUDLocation.update c1loc c1upd).latitude = 11 ∧
    (CRUDLocation.update c1loc c1upd).geom = st_setSRID (st_makePoint 20 10) 4326 ∧
    st_setSRID (st_makePoint 20 11) 4326 ≠ (CRUDLocation.update c1loc c1upd).geom := by
  refine ⟨by decide, by decide, by decide⟩

/-- Row of the countries table (models.py, class Country). -/
structure Country where
  id : Int
  code : String
  name : String
deriving DecidableEq

/-- Row of the regions table (models.py, class Region). -/
structure Region where
  id : Int
  name : String
  country_id : Int
deriving DecidableEq

/-- Row of the districts table (models.py, class District). -/
structure District where
  id : Int
  name : String
  region_id : Int
deriving DecidableEq

/-- Row of the wards table (models.py, class Ward). -/
structure Ward where
  id : Int
  name : String
  district_id : Int
deriving DecidableEq

/-- Row of the ratings table (models.py, class Rating). -/
structure Rating where
  id : Int
  location_id : Int
  user_id : Int
  rating : ℚ
deriving DecidableEq

/-- Row of the location_amenities table as declared in models.py, class
LocationAmenity: a location-owned amenity row carrying its name. -/
structure LocationAmenity where
  id : Int
  location_id : Int
  name : String
deriving DecidableEq

/-- Row of the amenities catalog table referenced by
CRUDLocation._apply_filters (and created by migration
004_location_filtering): id plus name. -/
structure Amenity where
  id : Int
  name : String
deriving DecidableEq

/-- Row of the location_amenities link table as referenced by
CRUDLocation._apply_filters (LocationAmenity.location_id joined with
Amenity on LocationAmenity.amenity_id, per migration 004). -/
structure LocationAmenityLink where
  location_id : Int
  amenity_id : Int
deriving DecidableEq

/-- The relational store: one list of rows per table. -/
structure DB where
  locations : List Location := []
  countries : List Country := []
  regions : List Region := []
  districts : List District := []
  wards : List Ward := []
  ratings : List Rating := []
  location_amenities : List LocationAmenity := []
  amenities : List Amenity := []
  amenity_links : List LocationAmenityLink := []
deriving DecidableEq

/-- Committing CRUDLocation.update on the location with the given id: the
method mutates the fetched entity via setattr and commits; no statement
of the method reads or writes any other table. -/
def update_in_db (db : DB) (lid : Int) (obj_in : LocationUpdate) : DB :=
  { db with locations :=
      db.locations.map (fun l => if l.id == lid then CRUDLocation.update l obj_in else l) }

/-- foldl distributes over list append, specialized to the update loop. -/
theorem applyUpdateData_append (l : Location) (d1 d2 : List (FieldKey × PyValue)) :
    applyUpdateData l (d1 ++ d2) = applyUpdateData (applyUpdateData l d1) d2 :=
  List.foldl_append _ _ _ _

/-- The amenities dict entry is a no-op in the application loop: the
Location entity has no "amenities" attribute, so hasattr fails and the
guard skips the entry. -/
theorem applyUpdateData_amenities_entry (l : Location) (v : Option (List String)) :
    applyUpdateData l (optEntry .amenities .plist v) = l := by
  cases v <;> rfl

/-- The result of CRUDLocation.update does not depend on the amenities
field of the partial spec. -/
theorem update_ignores_amenities (db_obj : Location) (obj_in : LocationUpdate)
    (am : Option (List String)) :
    CRUDLocation.update db_obj { obj_in with amenities := am } =
      CRUDLocation.update db_obj obj_in := by
  show applyUpdateData db_obj _ = applyUpdateData db_obj _
  unfold updateData
  simp only [applyUpdateData_append, applyUpdateData_amenities_entry]

/-- C2 (amended): an update call never modifies amenity rows — the
amenities field of the partial spec is silently dropped (the entity has
no "amenities" attribute, so the hasattr guard skips it), so the
location_amenities table is a frame-invariant of update and the update
result does not depend on the amenities field at all. -/
theorem update_amenities_frame_invariant (db : DB) (lid : Int) (obj_in : LocationUpdate)
    (db_obj : Location) (am : Option (List String)) :
    (update_in_db db lid obj_in).location_amenities = db.location_amenities ∧
    CRUDLocation.update db_obj { obj_in with amenities := am } =
      CRUDLocation.update db_obj obj_in :=
  ⟨rfl, update_ignores_amenities db_obj obj_in am⟩

/-- Concrete location owning one amenity row named "Pool". -/
def c2loc : Location :=
  { id := 1, name := "Cafe B", latitude := 10, longitude := 20,
    geom := st_setSRID (st_makePoint 20 10) 4326 }

/-- Store with c2loc and its single amenity row. -/
def c2db : DB := { locations := [c2loc], location_amenities := [⟨1, 1, "Pool"⟩] }

/-- Partial update setting amenities to ["WiFi"]. -/
def c2updWifi : LocationUpdate := { amenities := some ["WiFi"] }

/-- Partial update setting amenities to the empty list. -/
def c2updClear : LocationUpdate := { amenities := some [] }

/-- C2 (counterexample): updating the amenities of location 1 to ["WiFi"]
and then to [] leaves its pre-existing amenity row "Pool" untouched —
after the first call the rows are not ["WiFi"], and after the second
call the location still has one amenity row rather than zero, so the
claimed replace-and-clear behaviour does not hold. -/
theorem update_amenities_not_replaced :
    ((update_in_db (update_in_db c2db 1 c2updWifi) 1 c2updClear).location_amenities.map
        LocationAmenity.name) = ["Pool"] ∧
    ((update_in_db c2db 1 c2updWifi).location_amenities.map LocationAmenity.name) ≠ ["WiFi"] ∧
    (update_in_db (update_in_db c2db 1 c2updWifi) 1 c2updClear).location_amenities ≠ [] := by
  refine ⟨by decide, by decide, by decide⟩

/-- app/schemas/location.py, enum SortOption. -/
inductive SortOption where
  | popularity_desc | popularity_asc | name_asc | name_desc
  | rating_desc | rating_asc | price_asc | price_desc
deriving DecidableEq

/-- app/schemas/location.py, class LocationFilterParams (the validated
filter specification; page and size arrive here already validated). -/
structure LocationFilterParams where
  page : Nat := 1
  size : Nat := 20
  search_term : Option String := none
  country_id : Option Int := none
  region_id : Option Int := none
  district_id : Option Int := none
  ward_id : Option Int := none
  category_id : Option Int := none
  price_range_min : Option ℚ := none
  price_range_max : Option ℚ := none
  amenities : Option (List String) := none
  min_rating : Option ℚ := none
  sort_by : Option SortOption := none
deriving DecidableEq

/-- Whether the second character list starts with the first. -/
def charsStartWith : List Char → List Char → Bool
  | [], _ => true
  | _ :: _, [] => false
  | p :: ps, h :: hs => p == h && charsStartWith ps hs

/-- Whether the second character list contains the first as a contiguous
sublist. -/
def charsContain (pat : List Char) : List Char → Bool
  | [] => pat.isEmpty
  | h :: hs => charsStartWith pat (h :: hs) || charsContain pat hs

/-- SQL "hay ILIKE %pat%": case-insensitive substring containment. -/
def likeContains (hay pat : String) : Bool :=
  charsContain (pat.data.map Char.toLower) (hay.data.map Char.toLower)

/-- ILIKE on a nullable column: SQL NULL never matches. -/
def optLike (v : Option String) (pat : String) : Bool :=
  match v with
  | some s => likeContains s pat
  | none => false

/-- The search_term branch of _apply_filters (lines 93-102): a Python
truthiness test (None and the empty string impose no constraint), then
ILIKE %term% over name, description, address and city, ORed. -/
def searchTest (o : Option String) (l : Location) : Bool :=
  match o with
  | none => true
  | some s =>
    if s = "" then true
    else likeContains l.name s || optLike l.description s ||
      optLike l.address s || optLike l.city s

/-- An exact foreign-key filter branch guarded by Python truthiness
(lines 105-114): id 0 is falsy and imposes no constraint. -/
def fkTest (o : Option Int) (v : Option Int) : Bool :=
  match o with
  | none => true
  | some c => if c = 0 then true else v == some c

/-- price_range_min branch (lines 117-118): Location.price_min >= bound;
a NULL stored price never satisfies the comparison. -/
def priceMinTest (o : Option ℚ) (v : Option ℚ) : Bool :=
  match o with
  | none => true
  | some x => match v with
    | some pm => decide (x ≤ pm)
    | none => false

/-- price_range_max branch (lines 120-121): Location.price_max <= bound. -/
def priceMaxTest (o : Option ℚ) (v : Option ℚ) : Bool :=
  match o with
  | none => true
  | some x => match v with
    | some pm => decide (pm ≤ x)
    | none => false

/-- The per-amenity-name subquery of _apply_filters (lines 126-134):
select LocationAmenity.location_id joined with Amenity on
LocationAmenity.amenity_id == Amenity.id where Amenity.name == name. -/
def amenitySubqueryIds (db : DB) (nm : String) : List Int :=
  (db.amenity_links.filter
    (fun la => db.amenities.any (fun a => la.amenity_id == a.id && a.name == nm))).map
    LocationAmenityLink.location_id

/-- The amenities branch (lines 124-134): truthiness guard (None or the
empty list imposes no constraint), then one Location.id IN subquery per
supplied name, all ANDed. -/
def amenitiesTest (o : Option (List String)) (db : DB) (lid : Int) : Bool :=
  match o with
  | none => true
  | some names =>
    if names.isEmpty then true
    else names.all (fun nm => (amenitySubqueryIds db nm).contains lid)

/-- The location ids appearing in the ratings table (the GROUP BY
Rating.location_id groups of the min-rating subquery). -/
def ratingLocationIds (db : DB) : List Int :=
  (db.ratings.map Rating.location_id).dedup

/-- The average_rating aggregate: arithmetic mean of the rating values of
the location, none when the location has no rating rows (models.py
property average_rating and the AVG aggregate of _apply_filters). -/
def avgRating (db : DB) (lid : Int) : Option ℚ :=
  let vals := (db.ratings.filter (fun r => r.location_id == lid)).map Rating.rating
  if vals.isEmpty then none else some (vals.sum / (vals.length : ℚ))

/-- The min-rating subquery (lines 139-146): group ratings by location_id,
keep groups HAVING avg(rating) >= m, and return their location ids. -/
def minRatingIds (db : DB) (m : ℚ) : List Int :=
  (ratingLocationIds db).filter (fun lid =>
    match avgRating db lid with
    | some a => decide (m ≤ a)
    | none => false)

/-- The min_rating branch (lines 137-148): None imposes no constraint,
otherwise Location.id IN the min-rating subquery. -/
def minRatingTest (o : Option ℚ) (db : DB) (lid : Int) : Bool :=
  match o with
  | none => true
  | some m => (minRatingIds db m).contains lid

/-- CRUDLocation._apply_filters (crud_location.py lines 83-150) as a row
predicate: active flag, search term, country/region/category exact
filters, price bounds, amenities and min rating, all ANDed.  The
district_id and ward_id parameters are accepted but never filtered on,
exactly as in the source. -/
def filterPred (p : LocationFilterParams) (db : DB) (l : Location) : Bool :=
  l.is_active &&
  searchTest p.search_term l &&
  fkTest p.country_id l.country_id &&
  fkTest p.region_id l.region_id &&
  fkTest p.category_id l.category_id &&
  priceMinTest p.price_range_min l.price_min &&
  priceMaxTest p.price_range_max l.price_max &&
  amenitiesTest p.amenities db l.id &&
  minRatingTest p.min_rating db l.id

/-- Applying _apply_filters to a SELECT over the given rows. -/
def apply_filters (p : LocationFilterParams) (db : DB) (locs : List Location) : List Location :=
  locs.filter (filterPred p db)

/-- Insertion step of a stable sort by a boolean comparison. -/
def insertR (r : Location → Location → Bool) (x : Location) : List Location → List Location
  | [] => [x]
  | y :: ys => if r x y then x :: y :: ys else y :: insertR r x ys

/-- ORDER BY modelled as an insertion sort by a boolean comparison. -/
def sortR (r : Location → Location → Bool) : List Location → List Location
  | [] => []
  | x :: xs => insertR r x (sortR r xs)

/-- Ascending comparison on a nullable SQL value (ASC places NULLs last). -/
def optLeAscNullsLast : Option ℚ → Option ℚ → Bool
  | none, none => true
  | none, some _ => false
  | some _, none => true
  | some a, some b => decide (a ≤ b)

/-- Descending comparison on a nullable SQL value (DESC places NULLs first). -/
def optGeDescNullsFirst : Option ℚ → Option ℚ → Bool
  | none, _ => true
  | some _, none => false
  | some a, some b => decide (b ≤ a)

/-- CRUDLocation._apply_sorting (lines 152-188): keyed ORDER BY per sort
option; the default when no option is supplied is name ascending
(line 160).  Rating sorts use the correlated average-rating subquery. -/
def apply_sorting (db : DB) (o : Option SortOption) (locs : List Location) : List Location :=
  match o with
  | none => sortR (fun a b => decide (a.name ≤ b.name)) locs
  | some .name_asc => sortR (fun a b => decide (a.name ≤ b.name)) locs
  | some .name_desc => sortR (fun a b => decide (b.name ≤ a.name)) locs
  | some .popularity_asc => sortR (fun a b => decide (a.popularity_score ≤ b.popularity_score)) locs
  | some .popularity_desc => sortR (fun a b => decide (b.popularity_score ≤ a.popularity_score)) locs
  | some .rating_asc => sortR (fun a b => optLeAscNullsLast (avgRating db a.id) (avgRating db b.id)) locs
  | some .rating_desc => sortR (fun a b => optGeDescNullsFirst (avgRating db a.id) (avgRating db b.id)) locs
  | some .price_asc => sortR (fun a b => optLeAscNullsLast a.price_min b.price_min) locs
  | some .price_desc => sortR (fun a b => optGeDescNullsFirst a.price_max b.price_max) locs

/-- The total_pages formula of CRUDLocation.get_multi_filter (line 72):
ceil(total_count / size) if total_count > 0 else 1. -/
def location_total_pages (total size : Nat) : Nat :=
  if 0 < total then (total + size - 1) / size else 1

/-- The total_pages formula of CRUDCountries.get_countries_by_pagination
(crud_countries.py line 124): total // size + (1 if total % size > 0 else 0). -/
def countries_total_pages (total size : Nat) : Nat :=
  total / size + (if 0 < total % size then 1 else 0)

/-- CRUDLocation.get_multi_filter (lines 36-81): filter, sort, count with
the same predicate before pagination, compute total_pages, then apply
offset = (page-1)*size and limit = size.  Returns (locations,
total_count, total_pages). -/
def get_multi_filter (db : DB) (p : LocationFilterParams) : List Location × Nat × Nat :=
  let filtered := apply_filters p db db.locations
  let sorted := apply_sorting db p.sort_by filtered
  let total_count := filtered.length
  (((sorted.drop ((p.page - 1) * p.size)).take p.size), total_count,
    location_total_pages total_count p.size)

/-- Membership is invariant under the insertion step. -/
theorem mem_insertR (r : Location → Location → Bool) (x a : Location) (l : List Location) :
    a ∈ insertR r x l ↔ a = x ∨ a ∈ l := by
  induction l with
  | nil => simp [insertR]
  | cons y ys ih =>
    simp only [insertR]
    split
    · simp
    · simp only [List.mem_cons, ih]
      tauto

/-- Membership is invariant under the sort. -/
theorem mem_sortR (r : Location → Location → Bool) (a : Location) (l : List Location) :
    a ∈ sortR r l ↔ a ∈ l := by
  induction l with
  | nil => simp [sortR]
  | cons y ys ih => simp [sortR, mem_insertR, ih]

/-- Membership is invariant under ORDER BY. -/
theorem mem_apply_sorting (db : DB) (o : Option SortOption) (a : Location) (l : List Location) :
    a ∈ apply_sorting db o l ↔ a ∈ l := by
  cases o with
  | none => exact mem_sortR _ a l
  | some s => cases s <;> exact mem_sortR _ a l

/-- C8: every location returned by the filtered-paginated list operation
has is_active = true, regardless of the other filters supplied — the
predicate unconditionally contains Location.is_active == True. -/
theorem get_multi_filter_only_active (db : DB) (p : LocationFilterParams) (l : Location)
    (h : l ∈ (get_multi_filter db p).1) : l.is_active = true := by
  have h1 : l ∈ apply_sorting db p.sort_by (apply_filters p db db.locations) :=
    List.drop_subset _ _ (List.take_subset _ _ h)
  have h2 : l ∈ apply_filters p db db.locations := (mem_apply_sorting _ _ _ _).mp h1
  have h3 := (List.mem_filter.mp h2).2
  simp only [filterPred, Bool.and_eq_true] at h3
  exact h3.1.1.1.1.1.1.1.1

/-- Concrete active location for the C8 witness. -/
def c8loc : Location :=
  { id := 1, name := "A", latitude := 0, longitude := 0,
    geom := st_setSRID (st_makePoint 0 0) 4326 }

/-- Store holding only c8loc. -/
def c8db : DB := { locations := [c8loc] }

/-- C8 witness: the default filter over c8db returns c8loc, and the
theorem yields its is_active flag. -/
theorem get_multi_filter_only_active_witness : c8loc.is_active = true :=
  get_multi_filter_only_active c8db {} c8loc (by decide)

/-- Boolean list containment agrees with membership. -/
theorem intList_contains_iff (l : List Int) (a : Int) : l.contains a = true ↔ a ∈ l := by
  simp [List.contains, List.elem_iff]

/-- A location id with an average rating has at least one rating row. -/
theorem avgRating_eq_some_imp (db : DB) (lid : Int) (a : ℚ)
    (h : avgRating db lid = some a) : ∃ r ∈ db.ratings, r.location_id = lid := by
  by_contra hc
  push_neg at hc
  have hnil : db.ratings.filter (fun r => r.location_id == lid) = [] := by
    rw [List.filter_eq_nil_iff]
    intro r hr
    simpa using hc r hr
  unfold avgRating at h
  rw [hnil] at h
  simp at h

/-- Membership in the min-rating subquery characterized: the location has
an average rating and it is at least m. -/
theorem minRatingTest_some_iff (db : DB) (m : ℚ) (lid : Int) :
    minRatingTest (some m) db lid = true ↔
      ∃ a, avgRating db lid = some a ∧ m ≤ a := by
  simp only [minRatingTest, minRatingIds, ratingLocationIds]
  rw [intList_contains_iff, List.mem_filter]
  constructor
  · rintro ⟨hmem, hcond⟩
    cases h : avgRating db lid with
    | none => rw [h] at hcond; simp at hcond
    | some a => rw [h] at hcond; exact ⟨a, rfl, of_decide_eq_true hcond⟩
  · rintro ⟨a, ha, hm⟩
    refine ⟨?_, by rw [ha]; exact decide_eq_true hm⟩
    obtain ⟨r, hr, hrl⟩ := avgRating_eq_some_imp db lid a ha
    exact List.mem_dedup.mpr (List.mem_map.mpr ⟨r, hr, hrl⟩)

/-- The filter predicate with min_rating set decomposes into the same
predicate without it plus the average-rating condition. -/
theorem filterPred_min_rating (p : LocationFilterParams) (db : DB) (l : Location) (m : ℚ)
    (h : p.min_rating = some m) :
    (filterPred p db l = true) ↔
      (filterPred { p with min_rating := none } db l = true ∧
       ∃ a, avgRating db l.id = some a ∧ m ≤ a) := by
  unfold filterPred
  rw [h]
  constructor
  · intro hall
    rw [Bool.and_eq_true] at hall
    exact ⟨by rw [Bool.and_eq_true]; exact ⟨hall.1, rfl⟩,
           (minRatingTest_some_iff db m l.id).mp hall.2⟩
  · rintro ⟨hbase, hex⟩
    rw [Bool.and_eq_true] at hbase ⊢
    exact ⟨hbase.1, (minRatingTest_some_iff db m l.id).mpr hex⟩

/-- C4 (theorem): with min_rating = m set, the filtered list keeps exactly
the locations that pass the remaining filters and whose average rating
(arithmetic mean of their rating rows) exists and is at least m; a
location with no ratings has no average and is excluded, it is not
treated as rating zero. -/
theorem min_rating_filter_exact (p : LocationFilterParams) (db : DB) (locs : List Location)
    (l : Location) (m : ℚ) (h : p.min_rating = some m) :
    l ∈ apply_filters p db locs ↔
      (l ∈ apply_filters { p with min_rating := none } db locs ∧
       ∃ a, avgRating db l.id = some a ∧ m ≤ a) := by
  simp only [apply_filters, List.mem_filter, filterPred_min_rating p db l m h]
  tauto

/-- Concrete location for the C4 witness. -/
def c4loc : Location :=
  { id := 1, name := "R", latitude := 0, longitude := 0,
    geom := st_setSRID (st_makePoint 0 0) 4326 }

/-- Store where location 1 has two ratings averaging exactly 4. -/
def c4db : DB := { locations := [c4loc], ratings := [⟨1, 1, 7, 4⟩, ⟨2, 1, 8, 4⟩] }

/-- Filter requesting min_rating = 4. -/
def c4params : LocationFilterParams := { min_rating := some 4 }

/-- C4 witness: the theorem applied at the concrete store. -/
theorem min_rating_filter_exact_witness :
    c4loc ∈ apply_filters c4params c4db [c4loc] ↔
      (c4loc ∈ apply_filters { c4params with min_rating := none } c4db [c4loc] ∧
       ∃ a, avgRating c4db c4loc.id = some a ∧ (4 : ℚ) ≤ a) :=
  min_rating_filter_exact c4params c4db [c4loc] c4loc 4 rfl

/-- Store where location 1 has one rating of 39/10 = 3.9. -/
def c4db39 : DB := { locations := [c4loc], ratings := [⟨1, 1, 7, 39/10⟩] }

/-- Boundary behaviour of the min-rating filter: an average of 3.9 is
excluded at threshold 4, an average of exactly 4 is included, and a
location with no ratings at all is excluded even at threshold 0. -/
theorem min_rating_boundary :
    apply_filters c4params c4db39 [c4loc] = [] ∧
    apply_filters c4params c4db [c4loc] = [c4loc] ∧
    apply_filters { min_rating := some 0 } { locations := [c4loc] } [c4loc] = [] := by
  refine ⟨?_, ?_, ?_⟩ <;>
    norm_num [apply_filters, filterPred, searchTest, fkTest, priceMinTest, priceMaxTest,
      amenitiesTest, minRatingTest, minRatingIds, ratingLocationIds, avgRating,
      c4params, c4db39, c4db, c4loc, List.filter, List.contains]

/-- Membership in the per-name amenity subquery characterized: some link
row for this location points at a catalog amenity with exactly the
supplied name. -/
theorem amenityMatch_iff (db : DB) (nm : String) (lid : Int) :
    (amenitySubqueryIds db nm).contains lid = true ↔
      ∃ la ∈ db.amenity_links, la.location_id = lid ∧
        ∃ a ∈ db.amenities, la.amenity_id = a.id ∧ a.name = nm := by
  simp only [amenitySubqueryIds]
  rw [intList_contains_iff]
  simp only [List.mem_map, List.mem_filter, List.any_eq_true, Bool.and_eq_true, beq_iff_eq]
  constructor
  · rintro ⟨la, ⟨hmem, a, ha, hid, hnm⟩, hlid⟩
    exact ⟨la, hmem, hlid, a, ha, hid, hnm⟩
  · rintro ⟨la, hmem, hlid, a, ha, hid, hnm⟩
    exact ⟨la, ⟨hmem, a, ha, hid, hnm⟩, hlid⟩

/-- The filter predicate with a non-empty amenities list decomposes into
the same predicate without it plus one subquery test per name, ANDed. -/
theorem filterPred_amenities (p : LocationFilterParams) (db : DB) (l : Location)
    (names : List String) (h : p.amenities = some names) (hne : names ≠ []) :
    (filterPred p db l = true) ↔
      (filterPred { p with amenities := none } db l = true ∧
       ∀ nm ∈ names, ∃ la ∈ db.amenity_links, la.location_id = l.id ∧
         ∃ a ∈ db.amenities, la.amenity_id = a.id ∧ a.name = nm) := by
  have hie : names.isEmpty = false := by
    cases names with
    | nil => exact absurd rfl hne
    | cons x xs => rfl
  unfold filterPred
  rw [h]
  constructor
  · intro hall
    rw [Bool.and_eq_true] at hall
    obtain ⟨hbase, hamen⟩ := hall
    rw [Bool.and_eq_true] at hbase
    refine ⟨?_, ?_⟩
    · rw [Bool.and_eq_true, Bool.and_eq_true]
      exact ⟨⟨hbase.1, rfl⟩, hamen⟩
    · have : names.all (fun nm => (amenitySubqueryIds db nm).contains l.id) = true := by
        simpa [amenitiesTest, hie] using hbase.2
      intro nm hnm
      exact (amenityMatch_iff db nm l.id).mp (List.all_eq_true.mp this nm hnm)
  · rintro ⟨hbase, hnames⟩
    rw [Bool.and_eq_true, Bool.and_eq_true] at hbase
    rw [Bool.and_eq_true, Bool.and_eq_true]
    refine ⟨⟨hbase.1.1, ?_⟩, hbase.2⟩
    simp only [amenitiesTest, hie, if_false, Bool.if_false_left]
    exact List.all_eq_true.mpr
      (fun nm hnm => (amenityMatch_iff db nm l.id).mpr (hnames nm hnm))

/-- C5 (amended theorem): with a non-empty amenities list supplied, the
filtered list keeps exactly the locations that pass the remaining
filters and, for each supplied name independently (ANDed), appear in
the subquery joining the location_amenities link table with the shared
amenities catalog on amenity_id where the catalog name equals — exactly,
not as a substring — the supplied name. -/
theorem amenities_filter_exact (p : LocationFilterParams) (db : DB) (locs : List Location)
    (l : Location) (names : List String) (h : p.amenities = some names) (hne : names ≠ []) :
    l ∈ apply_filters p db locs ↔
      (l ∈ apply_filters { p with amenities := none } db locs ∧
       ∀ nm ∈ names, ∃ la ∈ db.amenity_links, la.location_id = l.id ∧
         ∃ a ∈ db.amenities, la.amenity_id = a.id ∧ a.name = nm) := by
  simp only [apply_filters, List.mem_filter, filterPred_amenities p db l names h hne]
  tauto

/-- Concrete location owning the amenity row "WiFi Premium". -/
def c5loc : Location :=
  { id := 1, name := "Cafe C", latitude := 0, longitude := 0,
    geom := st_setSRID (st_makePoint 0 0) 4326 }

/-- Store where location 1 owns the single amenity row "WiFi Premium"
(and the catalog/link tables used by the filter carry the same name). -/
def c5db : DB :=
  { locations := [c5loc],
    location_amenities := [⟨1, 1, "WiFi Premium"⟩],
    amenities := [⟨1, "WiFi Premium"⟩],
    amenity_links := [⟨1, 1⟩] }

/-- Filter asking for amenity name "WiFi". -/
def c5params : LocationFilterParams := { amenities := some ["WiFi"] }

/-- C5 (counterexample): "WiFi" is a substring of the owned amenity row
name "WiFi Premium", so the claimed substring semantics would return
location 1; the code compares Amenity.name with == and returns nothing. -/
theorem amenities_filter_not_substring :
    likeContains "WiFi Premium" "WiFi" = true ∧
    (c5db.location_amenities.map LocationAmenity.name) = ["WiFi Premium"] ∧
    apply_filters c5params c5db [c5loc] = [] := by
  refine ⟨by decide, by decide, by decide⟩

/-- Store where the catalog name is exactly "WiFi". -/
def c5dbExact : DB :=
  { locations := [c5loc],
    location_amenities := [⟨1, 1, "WiFi"⟩],
    amenities := [⟨1, "WiFi"⟩],
    amenity_links := [⟨1, 1⟩] }

/-- C5 witness: the amended theorem applied at the concrete store with an
exact-name match. -/
theorem amenities_filter_exact_witness :
    c5loc ∈ apply_filters c5params c5dbExact [c5loc] ↔
      (c5loc ∈ apply_filters { c5params with amenities := none } c5dbExact [c5loc] ∧
       ∀ nm ∈ ["WiFi"], ∃ la ∈ c5dbExact.amenity_links, la.location_id = c5loc.id ∧
         ∃ a ∈ c5dbExact.amenities, la.amenity_id = a.id ∧ a.name = nm) :=
  amenities_filter_exact c5params c5dbExact [c5loc] c5loc ["WiFi"] rfl (by decide)

/-- The countries formula is ceiling division whenever the size is
positive. -/
theorem countries_total_pages_eq_ceil (t s : Nat) (hs : 0 < s) :
    countries_total_pages t s = (t + s - 1) / s := by
  unfold countries_total_pages
  rw [show t + s - 1 = t + (s - 1) by omega, Nat.add_div hs,
    Nat.div_eq_of_lt (show s - 1 < s by omega),
    Nat.mod_eq_of_lt (show s - 1 < s by omega), add_zero]
  by_cases h0 : t % s = 0
  · rw [h0, if_neg (lt_irrefl 0), if_neg (by omega)]
  · rw [if_pos (Nat.pos_of_ne_zero h0), if_pos (by omega)]

/-- C7 (counterexample): on an empty result set with size 20 the location
implementation reports 1 page while the countries implementation
reports 0, so the two paginated-list implementations do not agree at
total_items = 0. -/
theorem total_pages_disagree_on_empty :
    location_total_pages 0 20 = 1 ∧ countries_total_pages 0 20 = 0 ∧
    location_total_pages 0 20 ≠ countries_total_pages 0 20 := by
  refine ⟨by decide, by decide, by decide⟩

/-- C7 (amended theorem): for any size in [1,100] the two total_pages
formulas agree and equal ceil(total/size) whenever total_items > 0; at
total_items = 0 they disagree — the location implementation yields 1
and the countries implementation yields 0. -/
theorem total_pages_agree_iff_positive (total size : Nat) (h1 : 1 ≤ size) (h2 : size ≤ 100) :
    (0 < total →
      location_total_pages total size = countries_total_pages total size ∧
      countries_total_pages total size = (total + size - 1) / size) ∧
    (total = 0 →
      location_total_pages total size = 1 ∧ countries_total_pages total size = 0) := by
  constructor
  · intro hpos
    have hc := countries_total_pages_eq_ceil total size h1
    exact ⟨by rw [location_total_pages, if_pos hpos, hc], hc⟩
  · rintro rfl
    exact ⟨by simp [location_total_pages], by simp [countries_total_pages]⟩

/-- C7 witness: the amended theorem applied at total = 7, size = 20. -/
theorem total_pages_agree_iff_positive_witness :
    location_total_pages 7 20 = countries_total_pages 7 20 ∧
    countries_total_pages 7 20 = (7 + 20 - 1) / 20 :=
  (total_pages_agree_iff_positive 7 20 (by decide) (by decide)).1 (by decide)

/-- The clamping after-validator validate_page of LocationFilterParams
(schemas/location.py lines 107-111). -/
def validate_page (v : Int) : Int := if v < 1 then 1 else v

/-- The clamping after-validator validate_size (lines 113-119); note a
size below 1 maps to the default 20, not to 1. -/
def validate_size (v : Int) : Int := if v < 1 then 20 else if v > 100 then 100 else v

/-- A pydantic-v2 int field carrying Field(ge=..., le=...) constraints and
an after-mode field validator: the constraints are checked first and a
violation raises ValidationError (modelled as none); only when they
pass does the validator run on the value. -/
def parseField (ge le : Option Int) (validator : Int → Int) (v : Int) : Option Int :=
  if (match ge with | some g => decide (g ≤ v) | none => true) &&
     (match le with | some u => decide (v ≤ u) | none => true)
  then some (validator v) else none

/-- Validation of the page and size fields of LocationFilterParams
(schemas/location.py lines 93-94 with the validators of lines 107-119):
page has Field(ge=1) and size has Field(ge=1, le=100); pydantic raises
on the first failing field. -/
def locationFilterParamsPageSize (page size : Int) : Option (Int × Int) :=
  match parseField (some 1) none validate_page page with
  | none => none
  | some p =>
    match parseField (some 1) (some 100) validate_size size with
    | none => none
    | some s => some (p, s)

/-- C6 (counterexample): page = 0 and size = 150 are rejected with a
validation error (none); the claimed behaviour — success with the
clamped values some (1, 20) and some (1, 100) — does not hold. -/
theorem page_size_out_of_range_rejected :
    locationFilterParamsPageSize 0 20 = none ∧
    locationFilterParamsPageSize 1 150 = none ∧
    locationFilterParamsPageSize 0 20 ≠ some (1, 20) ∧
    locationFilterParamsPageSize 1 150 ≠ some (1, 100) := by
  refine ⟨by decide, by decide, by decide, by decide⟩

/-- C6 (amended theorem): out-of-range pagination values are rejected by
the Field(ge/le) constraints before the clamping validators can run —
the call fails with a validation error; in-range values pass through
unchanged (the clamping branches of the validators are unreachable). -/
theorem page_size_validation (page size : Int) :
    (1 ≤ page → 1 ≤ size → size ≤ 100 →
      locationFilterParamsPageSize page size = some (page, size)) ∧
    ((page < 1 ∨ size < 1 ∨ 100 < size) →
      locationFilterParamsPageSize page size = none) := by
  constructor
  · intro hp hs1 hs2
    simp only [locationFilterParamsPageSize, parseField, validate_page, validate_size,
      decide_eq_true hp, decide_eq_true hs1, decide_eq_true hs2, Bool.and_self,
      Bool.and_true, Bool.true_and, if_true]
    simp [show ¬(page < 1) by omega, show ¬(size < 1) by omega, show ¬(size > 100) by omega]
  · intro hcase
    rcases hcase with hp | hs | hs
    · simp [locationFilterParamsPageSize, parseField, show ¬(1 ≤ page) by omega]
    · have hnone : parseField (some 1) (some 100) validate_size size = none := by
        simp [parseField, show ¬(1 ≤ size) by omega]
      cases hpg : parseField (some 1) none validate_page page with
      | none => simp [locationFilterParamsPageSize, hpg]
      | some p => simp [locationFilterParamsPageSize, hpg, hnone]
    · have hnone : parseField (some 1) (some 100) validate_size size = none := by
        simp [parseField, show ¬(size ≤ 100) by omega]
      cases hpg : parseField (some 1) none validate_page page with
      | none => simp [locationFilterParamsPageSize, hpg]
      | some p => simp [locationFilterParamsPageSize, hpg, hnone]

/-- C6 witness: in-range values pass unchanged; page 0 is rejected. -/
theorem page_size_validation_witness :
    locationFilterParamsPageSize 2 50 = some (2, 50) ∧
    locationFilterParamsPageSize 0 50 = none :=
  ⟨(page_size_validation 2 50).1 (by decide) (by decide) (by decide),
   (page_size_validation 0 50).2 (Or.inl (by decide))⟩

/-- ORM resolution of Location.ward (models.py relationship). -/
def findWard (db : DB) (l : Location) : Option Ward :=
  l.ward_id.bind (fun wid => db.wards.find? (fun w => w.id == wid))

/-- ORM resolution of Location.district. -/
def findDistrict (db : DB) (l : Location) : Option District :=
  l.district_id.bind (fun did => db.districts.find? (fun d => d.id == did))

/-- ORM resolution of Location.region. -/
def findRegion (db : DB) (l : Location) : Option Region :=
  l.region_id.bind (fun rid => db.regions.find? (fun r => r.id == rid))

/-- ORM resolution of Location.country. -/
def findCountry (db : DB) (l : Location) : Option Country :=
  l.country_id.bind (fun cid => db.countries.find? (fun c => c.id == cid))

/-- Python ", ".join over a list of strings. -/
def joinComma : List String → String
  | [] => ""
  | [x] => x
  | x :: xs => x ++ ", " ++ joinComma xs

/-- models.py, property Location.address_short (lines 160-171): collect
the ward name (else district, else region), append the country name
when resolved, and join with ", ". -/
def address_short (db : DB) (l : Location) : String :=
  let adminParts : List String :=
    match findWard db l with
    | some w => [w.name]
    | none =>
      match findDistrict db l with
      | some d => [d.name]
      | none =>
        match findRegion db l with
        | some r => [r.name]
        | none => []
  let parts := adminParts ++
    (match findCountry db l with
     | some c => [c.name]
     | none => [])
  joinComma parts

/-- The most specific resolved administrative-unit name: ward, else
district, else region. -/
def mostSpecificAdminName (db : DB) (l : Location) : Option String :=
  match findWard db l with
  | some w => some w.name
  | none =>
    match findDistrict db l with
    | some d => some d.name
    | none =>
      match findRegion db l with
      | some r => some r.name
      | none => none

/-- C9 (amended theorem): address_short returns the most specific
resolved administrative-unit name followed by the country name when
resolved, joined with ", "; when neither an administrative unit nor a
country is resolved it returns the empty string — it never falls back
to the raw address field. -/
theorem address_short_characterization (db : DB) (l : Location) :
    address_short db l =
      match mostSpecificAdminName db l, (findCountry db l).map Country.name with
      | some a, some c => a ++ ", " ++ c
      | some a, none => a
      | none, some c => c
      | none, none => "" := by
  unfold address_short mostSpecificAdminName
  cases findWard db l <;> cases findDistrict db l <;>
    cases findRegion db l <;> cases findCountry db l <;> rfl

/-- Concrete location with no resolved hierarchy but a raw address. -/
def c9loc : Location :=
  { id := 1, name := "X", latitude := 0, longitude := 0,
    geom := st_setSRID (st_makePoint 0 0) 4326, address := some "123 Main St" }

/-- Store holding only c9loc (no hierarchy rows at all). -/
def c9db : DB := { locations := [c9loc] }

/-- C9 (counterexample): with no administrative unit and no country
resolved, address_short returns "" and not the raw address field
"123 Main St" as claimed. -/
theorem address_short_no_address_fallback :
    c9loc.address = some "123 Main St" ∧
    address_short c9db c9loc = "" ∧
    address_short c9db c9loc ≠ "123 Main St" := by
  refine ⟨rfl, rfl, by decide⟩

/-- app/schemas/location.py, class NearbyLocationRequest (lines 144-151):
latitude/longitude of the origin, radius in kilometers (default 5),
result limit (default 20), optional category filter. -/
structure NearbyLocationRequest where
  latitude : ℚ
  longitude : ℚ
  radius : ℚ := 5
  limit : Nat := 20
  category_id : Option Int := none
deriving DecidableEq

/-- Modelled from the spec: the repository contains no nearby-search
implementation — only the NearbyLocationRequest schema exists under
src/ — so this follows spec section 4.4: keep the locations whose
distance to the origin is at most radius*1000 meters (radius is in
kilometers) and that match the category when one is supplied, order
them ascending by distance, and truncate to the limit.  The
great-circle distance of spec section 4.3 is abstracted as the supplied
function d giving each location its distance to the origin in meters. -/
def nearby (d : Location → ℚ) (req : NearbyLocationRequest) (locs : List Location) :
    List Location :=
  (sortR (fun a b => decide (d a ≤ d b))
    (locs.filter (fun l =>
      decide (d l ≤ req.radius * 1000) &&
      (match req.category_id with
       | none => true
       | some c => l.category_id == some c)))).take req.limit

/-- Inserting into a list that is pairwise-sorted by a total transitive
boolean relation keeps it pairwise-sorted. -/
theorem pairwise_insertR (r : Location → Location → Bool)
    (htot : ∀ a b, r a b = true ∨ r b a = true)
    (htrans : ∀ a b c, r a b = true → r b c = true → r a c = true)
    (x : Location) (l : List Location) (h : l.Pairwise (fun a b => r a b = true)) :
    (insertR r x l).Pairwise (fun a b => r a b = true) := by
  induction l with
  | nil => simp [insertR]
  | cons y ys ih =>
    obtain ⟨hy, hys⟩ := List.pairwise_cons.mp h
    simp only [insertR]
    split
    · next hxy =>
      refine List.pairwise_cons.mpr ⟨?_, h⟩
      intro z hz
      rcases List.mem_cons.mp hz with rfl | hzys
      · exact hxy
      · exact htrans x y z hxy (hy z hzys)
    · next hxy =>
      have hyx : r y x = true := by
        rcases htot x y with hh | hh
        · exact absurd hh (by simpa using hxy)
        · exact hh
      refine List.pairwise_cons.mpr ⟨?_, ih hys⟩
      intro z hz
      rcases (mem_insertR r x z ys).mp hz with rfl | hzys
      · exact hyx
      · exact hy z hzys

/-- Sorting by a total transitive boolean relation yields a
pairwise-sorted list. -/
theorem pairwise_sortR (r : Location → Location → Bool)
    (htot : ∀ a b, r a b = true ∨ r b a = true)
    (htrans : ∀ a b c, r a b = true → r b c = true → r a c = true)
    (l : List Location) : (sortR r l).Pairwise (fun a b => r a b = true) := by
  induction l with
  | nil => simp [sortR]
  | cons x xs ih => exact pairwise_insertR r htot htrans x (sortR r xs) ih

/-- C3: every location returned by nearby is within radius*1000 meters of
the origin and matches the requested category when one is supplied; the
results are ordered ascending by distance; and at most limit entries
are returned.  Holds for every distance function d, in particular the
SRID-4326 great-circle distance. -/
theorem nearby_radius_sorted_limited (d : Location → ℚ) (req : NearbyLocationRequest)
    (locs : List Location) :
    (∀ l, l ∈ nearby d req locs →
      d l ≤ req.radius * 1000 ∧ ∀ c, req.category_id = some c → l.category_id = some c) ∧
    (nearby d req locs).Pairwise (fun a b => d a ≤ d b) ∧
    (nearby d req locs).length ≤ req.limit := by
  refine ⟨?_, ?_, List.length_take_le _ _⟩
  · intro l hl
    have hl2 := (mem_sortR _ _ _).mp (List.take_subset _ _ hl)
    obtain ⟨-, hcond⟩ := List.mem_filter.mp hl2
    rw [Bool.and_eq_true] at hcond
    refine ⟨of_decide_eq_true hcond.1, ?_⟩
    intro c hc
    have h2 := hcond.2
    rw [hc] at h2
    exact beq_iff_eq.mp h2
  · have hs := pairwise_sortR (fun a b => decide (d a ≤ d b))
      (fun a b => by
        rcases le_total (d a) (d b) with h | h
        · exact Or.inl (decide_eq_true h)
        · exact Or.inr (decide_eq_true h))
      (fun a b c hab hbc =>
        decide_eq_true (le_trans (of_decide_eq_true hab) (of_decide_eq_true hbc)))
      (locs.filter (fun l =>
        decide (d l ≤ req.radius * 1000) &&
        (match req.category_id with
         | none => true
         | some c => l.category_id == some c)))
    exact ((hs.sublist (List.take_sublist _ _)).imp (fun h => of_decide_eq_true h))

/-- Concrete location in category 7 for the C3 witness. -/
def c3loc : Location :=
  { id := 1, name := "N", latitude := 0, longitude := 0,
    geom := st_setSRID (st_makePoint 0 0) 4326, category_id := some 7 }

/-- Concrete nearby request: radius 5 km, category 7. -/
def c3req : NearbyLocationRequest :=
  { latitude := 0, longitude := 0, radius := 5, limit := 20, category_id := some 7 }

/-- Distance function placing every location at the origin. -/
def c3dist : Location → ℚ := fun _ => 0

/-- C3 witness: the theorem applied to the concrete request, with the
membership hypothesis discharged by evaluation. -/
theorem nearby_radius_sorted_limited_witness :
    c3dist c3loc ≤ c3req.radius * 1000 ∧ c3loc.category_id = some 7 := by
  have hmem : c3loc ∈ nearby c3dist c3req [c3loc] := by
    norm_num [nearby, c3dist, c3req, c3loc, List.filter, sortR, insertR]
  have h := (nearby_radius_sorted_limited c3dist c3req [c3loc]).1 c3loc hmem
  exact ⟨h.1, h.2 7 rfl⟩
